import Mathlib

/-
Shallow embedding of `radicale/auth/ldap.py` (LDAP authentication backend of
Radicale).  The module defines a class `Auth` with

  * `__init__`  – reads the configuration, tries to import the `ldap3`
    module and falls back to the legacy `ldap` module (setting
    `self._ldap_version = 2` in that case), and optionally builds a TLS
    configuration object;
  * `_login2`  – the two-phase bind sequence implemented with the legacy
    `ldap` library;
  * `_login3`  – the two-phase bind sequence implemented with the `ldap3`
    library;
  * `login`    – the dispatcher choosing between the two.

The directory server is modelled by environments recording the outcome of
each external call (reader bind, search, user bind), and each login run
produces a trace recording the returned value or raised exception, the
`self._ldap_groups` assignment, how many connections were opened and
unbound, which attribute list a performed search requested, and whether a
bind with the end user's credentials was attempted.
-/

namespace RadicaleLdap

/-- Exceptions the legacy `ldap` library's operations can raise
(`ldap.INVALID_CREDENTIALS` plus transport/protocol failures). -/
inductive LdapExc where
  | invalidCredentials
  | serverDown
  | protocolError
deriving DecidableEq, Repr

/-- Python-level exceptions that can escape a call in this module. -/
inductive Err where
  /-- `raise RuntimeError(msg)` -/
  | runtimeError (msg : String)
  /-- a legacy `ldap` exception propagating uncaught -/
  | ldapExc (e : LdapExc)
  /-- an `ldap3` exception propagating uncaught -/
  | transportError
  /-- `AttributeError` (attribute lookup on `self` fails) -/
  | attributeError
  /-- `NameError` / `UnboundLocalError` (name lookup fails) -/
  | nameError
  /-- `KeyError` (missing configuration key) -/
  | keyError
deriving DecidableEq, Repr

/-- Outcome of a Python call: a returned string or a raised exception. -/
inductive Res where
  | ret (s : String)
  | raise (e : Err)
deriving DecidableEq, Repr

/-- A directory entry as returned by the search: its distinguished name and
the values of its `memberOf` attribute. -/
structure LdapEntry where
  dn : String
  memberOf : List String
deriving DecidableEq, Repr

/-- Environment for `_login2` (legacy `ldap` library): outcome of
`simple_bind_s` with the reader credentials, of `search_s`, the entries the
search returns, and the outcome of `simple_bind_s(user_dn, password)`
(`none` = success, `some e` = exception `e` raised). -/
structure Ldap2Env where
  readerBind : Option LdapExc
  searchExc : Option LdapExc
  searchRes : List LdapEntry
  userBind : String → String → Option LdapExc

/-- Outcome of creating `ldap3.Server`/`ldap3.Connection` for the reader. -/
inductive Setup3 where
  | ok
  | socketOpenError
  | otherExc
deriving DecidableEq, Repr

/-- Outcome of an `ldap3` `conn.bind()` call: returns `True`, returns
`False`, or raises an exception. -/
inductive Bind3 where
  | ok
  | rejected
  | raises
deriving DecidableEq, Repr

/-- Environment for `_login3` (`ldap3` library). `userSetupExc` records
whether creating the second `ldap3.Connection` raises. -/
structure Ldap3Env where
  setup : Setup3
  readerBindRes : Bind3
  searchRes : List LdapEntry
  userSetupExc : Bool
  userBind : String → String → Bind3

/-- Trace of one call of a login method. -/
structure LoginTrace where
  /-- the returned string or the escaping exception -/
  result : Res
  /-- value assigned to `self._ldap_groups` during the call, if any -/
  ldapGroups : Option (Finset String)
  /-- number of directory connections opened during the call -/
  connsOpened : Nat
  /-- number of `unbind()` calls performed during the call -/
  connsUnbound : Nat
  /-- attribute list requested by the search, `none` if no search was made -/
  searchAttrs : Option (List String)
  /-- whether a bind with the end user's credentials was attempted -/
  userBindAttempted : Bool
deriving DecidableEq

/-- Characters of a string before its first comma: `t.split(',')[0]`. -/
def takeUntilComma : List Char → List Char
  | [] => []
  | c :: t => if c = ',' then [] else c :: takeUntilComma t

/-- The leading relative-DN component of a membership value:
`t.split(',')[0]` in `_login2`. -/
def leadingRdn (v : String) : String :=
  ⟨takeUntilComma v.data⟩

/-- Group parsing done by `_login2`:
`t.decode('utf-8').split(',')[0][3:]` — the leading relative-DN component
with its first three characters dropped. -/
def parseGroup2 (v : String) : String :=
  ⟨(takeUntilComma v.data).drop 3⟩

/-- Characters after the first `=`; all characters of the attribute-name
prefix (and the `=` itself) are dropped, the empty list if no `=` occurs. -/
def dropThroughEq : List Char → List Char
  | [] => []
  | c :: t => if c = '=' then t else dropThroughEq t

/-- Modelled from the spec: "each value's leading relative-DN component"
"with the attribute-name prefix removed" — the leading component with
everything up to and including its first `=` dropped.  Used to compare the
spec's description of group parsing with the code's `[3:]`. -/
def parseGroupSpec (v : String) : String :=
  ⟨dropThroughEq (takeUntilComma v.data)⟩

/-- Number of characters before the first `=` of a list. -/
def attrNameLen : List Char → Nat
  | [] => 0
  | c :: t => if c = '=' then 0 else attrNameLen t + 1

/-- Instance state of class `Auth` after `__init__`.  `_ldap_version` is an
`Option` because the class body only carries the annotation
`_ldap_version: 3`, which assigns nothing; the attribute exists only when
`__init__` executed `self._ldap_version = 2` in the fallback-import branch. -/
structure Auth where
  ldapUri : String
  ldapBase : String
  ldapReaderDn : String
  ldapSecret : String
  ldapFilter : String
  ldapLoadGroups : Bool
  ldapUseSsl : Bool
  ldapVersion : Option Nat
  tls : Option (String × String × String × Bool × String)
deriving DecidableEq, Repr

/-- `_login2`: the two-phase bind sequence with the legacy `ldap` library.

Phase 1 is wrapped in `try: ... except Exception: raise RuntimeError
("Invalide ldap configuration")`; the `return ""` for an empty search
result happens inside the `try` and leaves the reader connection open
(no `unbind()` on that path).  Phase 2 opens a second connection and only
`ldap.INVALID_CREDENTIALS` is caught (returning `""`); any other exception
propagates.  On those two phase-2 exit paths the second connection is not
unbound either. -/
def Auth.login2 (self : Auth) (env : Ldap2Env) (login password : String) : LoginTrace :=
  match env.readerBind with
  | some _ =>
    -- `conn.simple_bind_s(self._ldap_reader_dn, self._ldap_secret)` raised:
    -- caught by `except Exception` → RuntimeError; conn never unbound
    { result := .raise (.runtimeError "Invalide ldap configuration"),
      ldapGroups := none, connsOpened := 1, connsUnbound := 0,
      searchAttrs := none, userBindAttempted := false }
  | none =>
    match env.searchExc with
    | some _ =>
      -- `conn.search_s(...)` raised: same `except Exception` handler
      { result := .raise (.runtimeError "Invalide ldap configuration"),
        ldapGroups := none, connsOpened := 1, connsUnbound := 0,
        searchAttrs := some ["memberOf"], userBindAttempted := false }
    | none =>
      match env.searchRes with
      | [] =>
        -- `if len(res) == 0: return ""` — inside the try, before `conn.unbind()`
        { result := .ret "", ldapGroups := none, connsOpened := 1,
          connsUnbound := 0, searchAttrs := some ["memberOf"],
          userBindAttempted := false }
      | entry :: _ =>
        -- `user_dn = res[0][0]`; `conn.unbind()`; second connection opened;
        -- `conn.simple_bind_s(user_dn, password)`
        match env.userBind entry.dn password with
        | none =>
          { result := .ret login,
            ldapGroups :=
              if self.ldapLoadGroups then
                some ((entry.memberOf.map parseGroup2).toFinset)
              else none,
            connsOpened := 2, connsUnbound := 2,
            searchAttrs := some ["memberOf"], userBindAttempted := true }
        | some .invalidCredentials =>
          -- `except ldap.INVALID_CREDENTIALS: return ""` — conn not unbound
          { result := .ret "", ldapGroups := none, connsOpened := 2,
            connsUnbound := 1, searchAttrs := some ["memberOf"],
            userBindAttempted := true }
        | some .serverDown =>
          { result := .raise (.ldapExc .serverDown), ldapGroups := none,
            connsOpened := 2, connsUnbound := 1,
            searchAttrs := some ["memberOf"], userBindAttempted := true }
        | some .protocolError =>
          { result := .raise (.ldapExc .protocolError), ldapGroups := none,
            connsOpened := 2, connsUnbound := 1,
            searchAttrs := some ["memberOf"], userBindAttempted := true }

/-- `_login3`: the two-phase bind sequence with the `ldap3` library.

The `try` around `Server`/`Connection` creation has a handler clause
`except self.ldap3.core.exceptions.LDAPSocketOpenError`; `self` has no
`ldap3` attribute, so evaluating the handler raises `AttributeError`.  The
second handler `except Exception: pass` lets control fall through with the
local `conn` unassigned, so `conn.bind()` raises a name error.  A reader
bind returning `False` raises RuntimeError.  The `entry_to_json()` value is
modelled as the entry's data (`dn` and `attributes`).  The whole phase-2
block is `try: ... except Exception: pass` followed by `return ""`, so any
phase-2 exception yields `""`; group values are appended raw, unparsed. -/
def Auth.login3 (self : Auth) (env : Ldap3Env) (login password : String) : LoginTrace :=
  match env.setup with
  | .socketOpenError =>
    { result := .raise .attributeError, ldapGroups := none,
      connsOpened := 0, connsUnbound := 0, searchAttrs := none,
      userBindAttempted := false }
  | .otherExc =>
    { result := .raise .nameError, ldapGroups := none,
      connsOpened := 0, connsUnbound := 0, searchAttrs := none,
      userBindAttempted := false }
  | .ok =>
    match env.readerBindRes with
    | .raises =>
      -- `conn.bind()` raised outside any try: propagates
      { result := .raise .transportError, ldapGroups := none,
        connsOpened := 1, connsUnbound := 0, searchAttrs := none,
        userBindAttempted := false }
    | .rejected =>
      -- `if not conn.bind(): raise RuntimeError(...)` — conn not unbound
      { result := .raise (.runtimeError "Unable to read from ldap server"),
        ldapGroups := none, connsOpened := 1, connsUnbound := 0,
        searchAttrs := none, userBindAttempted := false }
    | .ok =>
      match env.searchRes with
      | [] =>
        -- `if len(conn.entries) == 0: return ""` — before `conn.unbind()`
        { result := .ret "", ldapGroups := none, connsOpened := 1,
          connsUnbound := 0, searchAttrs := some ["memberOf"],
          userBindAttempted := false }
      | entry :: _ =>
        -- `user_entry = conn.entries[0].entry_to_json(); conn.unbind()`
        if env.userSetupExc then
          -- `ldap3.Connection(server, user_dn, password=password)` raised:
          -- `except Exception: pass` → `return ""`
          { result := .ret "", ldapGroups := none, connsOpened := 1,
            connsUnbound := 1, searchAttrs := some ["memberOf"],
            userBindAttempted := false }
        else
          match env.userBind entry.dn password with
          | .rejected =>
            -- `if not conn.bind(): return ""` — conn not unbound
            { result := .ret "", ldapGroups := none, connsOpened := 2,
              connsUnbound := 1, searchAttrs := some ["memberOf"],
              userBindAttempted := true }
          | .raises =>
            -- exception during bind: `except Exception: pass` → `return ""`
            { result := .ret "", ldapGroups := none, connsOpened := 2,
              connsUnbound := 1, searchAttrs := some ["memberOf"],
              userBindAttempted := true }
          | .ok =>
            { result := .ret login,
              ldapGroups :=
                if self.ldapLoadGroups then
                  -- `for g in user_entry['attributes']['memberOf']:
                  --    tmp.append(g)` — raw values, no parsing
                  some entry.memberOf.toFinset
                else none,
              connsOpened := 2, connsUnbound := 2,
              searchAttrs := some ["memberOf"], userBindAttempted := true }

/-- Which LDAP client libraries are importable in the running process:
`import ldap3` succeeds, or only the legacy `import ldap` succeeds, or
neither does. -/
inductive ImportState where
  | ldap3Available
  | onlyLegacyLdap
  | neither
deriving DecidableEq, Repr

/-- The configuration surface consumed by `__init__`: `configuration.get
("auth", key)` either yields a value or raises `KeyError` (`none`). -/
structure Configuration where
  ldapUri : Option String
  ldapBase : Option String
  ldapReaderDn : Option String
  ldapSecret : Option String
  ldapFilter : Option String
  ldapLoadGroups : Option Bool
  ldapUseSsl : Option Bool
  ldapLocalPrivateKeyFile : Option String
  ldapLocalCertificateFile : Option String
  ldapTlsVersion : Option String
  ldapTlsValidate : Option Bool
  ldapCaCertsFile : Option String
deriving DecidableEq, Repr

/-- `Auth.__init__`.  The import dance runs first: if neither library
imports, a RuntimeError is raised.  `self._ldap_version = 2` is executed
only in the legacy-fallback branch; with `ldap3` available nothing assigns
`_ldap_version` (the class body's `_ldap_version: 3` is a bare annotation).
The six mandatory `configuration.get` calls propagate `KeyError` if a key
is missing.  The `ldap_use_ssl` lookup is wrapped in a bare
`try/except` defaulting to `False`.  The TLS block is wrapped in
`try: ... except KeyError: pass` (plus a second handler with an empty
body), so a missing TLS key leaves `self._tls` unset and `__init__`
completes normally. -/
def Auth.init (imp : ImportState) (c : Configuration) : Except Err Auth :=
  match imp with
  | .neither =>
    .error (.runtimeError "LDAP authentication requires the ldap3 module")
  | _ =>
    match c.ldapUri, c.ldapBase, c.ldapReaderDn, c.ldapLoadGroups,
          c.ldapSecret, c.ldapFilter with
    | some uri, some base, some rdn, some lg, some sec, some fil =>
      .ok { ldapUri := uri, ldapBase := base, ldapReaderDn := rdn,
            ldapSecret := sec, ldapFilter := fil, ldapLoadGroups := lg,
            ldapUseSsl := c.ldapUseSsl.getD false,
            ldapVersion :=
              match imp with
              | .onlyLegacyLdap => some 2
              | _ => none,
            tls :=
              if c.ldapUseSsl.getD false then
                match c.ldapLocalPrivateKeyFile, c.ldapLocalCertificateFile,
                      c.ldapTlsVersion, c.ldapTlsValidate,
                      c.ldapCaCertsFile with
                | some k, some ce, some tv, some va, some ca =>
                  some (k, ce, tv, va, ca)
                | _, _, _, _, _ =>
                  -- a missing key raises KeyError inside the try;
                  -- `except KeyError: pass` swallows it and construction
                  -- continues with `self._tls` unset
                  none
              else none }
    | _, _, _, _, _, _ => .error .keyError

/-- An empty trace carrying a raised exception: no connection opened, no
search performed, no user bind attempted. -/
def noopTrace (e : Err) : LoginTrace :=
  { result := .raise e, ldapGroups := none, connsOpened := 0,
    connsUnbound := 0, searchAttrs := none, userBindAttempted := false }

/-- The dispatcher `Auth.login`.  It first evaluates
`self._ldap_version == 2`: when `_ldap_version` was never assigned (the
`ldap3` import succeeded) the attribute lookup raises `AttributeError`.
When it was assigned, both branches call `_login2(self, ...)` /
`_login3(self, ...)` through plain module-level names, which are not
defined at module level (they are class attributes), so a `NameError` is
raised before the method body can run.  Either way no directory
connection, bind or search is attempted. -/
def Auth.login (self : Auth) (_env2 : Ldap2Env) (_env3 : Ldap3Env)
    (_l _password : String) : LoginTrace :=
  match self.ldapVersion with
  | none => noopTrace .attributeError
  | some _ => noopTrace .nameError

/- Concrete fixtures used by witnesses and counterexamples. -/

/-- A concrete `Auth` state: group loading enabled, no SSL, legacy library. -/
def authEx : Auth :=
  { ldapUri := "ldap://localhost", ldapBase := "dc=x",
    ldapReaderDn := "cn=reader,dc=x", ldapSecret := "rs",
    ldapFilter := "(uid={0})", ldapLoadGroups := true, ldapUseSsl := false,
    ldapVersion := some 2, tls := none }

/-- Same state with group loading disabled. -/
def authNoGroups : Auth :=
  { authEx with ldapLoadGroups := false }

/-- The matched directory entry of the spec's group example. -/
def entryEx : LdapEntry :=
  { dn := "uid=jdoe,ou=people,dc=x",
    memberOf := ["cn=admins,ou=groups,dc=x", "cn=users,ou=groups,dc=x"] }

/-- Legacy-library user bind: succeeds exactly for `entryEx`'s DN with
password `"pw"`, otherwise raises `INVALID_CREDENTIALS`. -/
def bind2Ex : String → String → Option LdapExc := fun d p =>
  if d = "uid=jdoe,ou=people,dc=x" && p = "pw" then none
  else some .invalidCredentials

/-- Happy-path environment for `_login2`. -/
def env2Ok : Ldap2Env :=
  { readerBind := none, searchExc := none, searchRes := [entryEx],
    userBind := bind2Ex }

/-- `_login2` environment whose search matches nothing. -/
def env2Empty : Ldap2Env :=
  { env2Ok with searchRes := [] }

/-- `_login2` environment whose reader bind is rejected. -/
def env2ReaderFail : Ldap2Env :=
  { env2Ok with readerBind := some .invalidCredentials }

/-- `_login2` environment whose user bind hits a transport failure. -/
def env2Transport : Ldap2Env :=
  { env2Ok with userBind := fun _ _ => some .serverDown }

/-- `ldap3` user bind: succeeds exactly for `entryEx`'s DN with password
`"pw"`, otherwise the bind returns `False`. -/
def bind3Ex : String → String → Bind3 := fun d p =>
  if d = "uid=jdoe,ou=people,dc=x" && p = "pw" then .ok else .rejected

/-- Happy-path environment for `_login3`. -/
def env3Ok : Ldap3Env :=
  { setup := .ok, readerBindRes := .ok, searchRes := [entryEx],
    userSetupExc := false, userBind := bind3Ex }

/-- `_login3` environment whose search matches nothing. -/
def env3Empty : Ldap3Env :=
  { env3Ok with searchRes := [] }

/-- `_login3` environment whose reader bind returns `False`. -/
def env3ReaderRejected : Ldap3Env :=
  { env3Ok with readerBindRes := .rejected }

/-- `_login3` environment whose user bind raises an exception. -/
def env3BindRaises : Ldap3Env :=
  { env3Ok with userBind := fun _ _ => .raises }

/-- `_login3` environment where creating the second connection raises. -/
def env3UserSetupExc : Ldap3Env :=
  { env3Ok with userSetupExc := true }

/-- A complete configuration with SSL off. -/
def confEx : Configuration :=
  { ldapUri := some "ldap://localhost", ldapBase := some "dc=x",
    ldapReaderDn := some "cn=reader,dc=x", ldapSecret := some "rs",
    ldapFilter := some "(uid={0})", ldapLoadGroups := some true,
    ldapUseSsl := some false, ldapLocalPrivateKeyFile := none,
    ldapLocalCertificateFile := none, ldapTlsVersion := none,
    ldapTlsValidate := none, ldapCaCertsFile := none }

/-- A configuration requesting SSL but missing the CA-bundle key. -/
def confPartialTls : Configuration :=
  { confEx with
    ldapUseSsl := some true,
    ldapLocalPrivateKeyFile := some "/etc/radicale/key.pem",
    ldapLocalCertificateFile := some "/etc/radicale/cert.pem",
    ldapTlsVersion := some "TLSv1_2", ldapTlsValidate := some true,
    ldapCaCertsFile := none }

/-- The `Auth` state produced by `__init__` with `ldap3` importable and
configuration `confEx`. -/
def authLdap3Ex : Auth :=
  { ldapUri := "ldap://localhost", ldapBase := "dc=x",
    ldapReaderDn := "cn=reader,dc=x", ldapSecret := "rs",
    ldapFilter := "(uid={0})", ldapLoadGroups := true, ldapUseSsl := false,
    ldapVersion := none, tls := none }

/-
Theorems for the claims.
-/

/-- C1: if the phase-1 search finds at least one matching entry and the
phase-2 bind with the resolved user DN and the supplied password succeeds,
the login procedure (in either library variant) returns exactly the
original username string passed in. -/
theorem C1_login_returns_original_username
    (self : Auth) (env2 : Ldap2Env) (env3 : Ldap3Env) (l p : String)
    (e2 : LdapEntry) (r2 : List LdapEntry)
    (e3 : LdapEntry) (r3 : List LdapEntry)
    (h2a : env2.readerBind = none) (h2b : env2.searchExc = none)
    (h2c : env2.searchRes = e2 :: r2)
    (h2d : env2.userBind e2.dn p = none)
    (h3a : env3.setup = .ok) (h3b : env3.readerBindRes = .ok)
    (h3c : env3.searchRes = e3 :: r3)
    (h3d : env3.userSetupExc = false)
    (h3e : env3.userBind e3.dn p = .ok) :
    (Auth.login2 self env2 l p).result = .ret l ∧
    (Auth.login3 self env3 l p).result = .ret l := by
  unfold Auth.login2 Auth.login3
  simp [h2a, h2b, h2c, h2d, h3a, h3b, h3c, h3d, h3e]

/-- C1 witness at a concrete directory state. -/
theorem C1_witness :
    (Auth.login2 authEx env2Ok "jdoe" "pw").result = .ret "jdoe" ∧
    (Auth.login3 authEx env3Ok "jdoe" "pw").result = .ret "jdoe" :=
  C1_login_returns_original_username authEx env2Ok env3Ok "jdoe" "pw"
    entryEx [] entryEx [] rfl rfl rfl (by decide) rfl rfl rfl rfl (by decide)

/-- C3: if the phase-1 reader bind fails (server unreachable, reader
credentials rejected, or the setup step raising), the login procedure (in
either variant) raises and never returns a value. -/
theorem C3_reader_bind_failure_raises
    (self : Auth) (env2 : Ldap2Env) (env3 : Ldap3Env) (l p : String)
    (h2 : env2.readerBind ≠ none)
    (h3 : env3.setup ≠ .ok ∨ env3.readerBindRes ≠ .ok) :
    (∃ e, (Auth.login2 self env2 l p).result = .raise e) ∧
    (∃ e, (Auth.login3 self env3 l p).result = .raise e) := by
  constructor
  · unfold Auth.login2
    cases hb : env2.readerBind with
    | none => exact absurd hb h2
    | some e => exact ⟨.runtimeError "Invalide ldap configuration", rfl⟩
  · unfold Auth.login3
    cases hs : env3.setup with
    | socketOpenError => exact ⟨.attributeError, rfl⟩
    | otherExc => exact ⟨.nameError, rfl⟩
    | ok =>
      cases hr : env3.readerBindRes with
      | raises => exact ⟨.transportError, rfl⟩
      | rejected => exact ⟨.runtimeError "Unable to read from ldap server", rfl⟩
      | ok =>
        rcases h3 with h3 | h3
        · exact absurd hs h3
        · exact absurd hr h3

/-- C3 witness at a concrete directory state. -/
theorem C3_witness :
    (∃ e, (Auth.login2 authEx env2ReaderFail "jdoe" "pw").result = .raise e) ∧
    (∃ e, (Auth.login3 authEx env3ReaderRejected "jdoe" "pw").result = .raise e) :=
  C3_reader_bind_failure_raises authEx env2ReaderFail env3ReaderRejected
    "jdoe" "pw" (by decide) (Or.inr (by decide))

/-- C5: if the phase-1 search returns zero entries, the login procedure (in
either variant) returns the empty string without raising, opens no second
connection, and never attempts a bind with the supplied password. -/
theorem C5_zero_entries_returns_empty_no_second_connection
    (self : Auth) (env2 : Ldap2Env) (env3 : Ldap3Env) (l p : String)
    (h2a : env2.readerBind = none) (h2b : env2.searchExc = none)
    (h2c : env2.searchRes = [])
    (h3a : env3.setup = .ok) (h3b : env3.readerBindRes = .ok)
    (h3c : env3.searchRes = []) :
    (Auth.login2 self env2 l p).result = .ret "" ∧
    (Auth.login2 self env2 l p).connsOpened = 1 ∧
    (Auth.login2 self env2 l p).userBindAttempted = false ∧
    (Auth.login3 self env3 l p).result = .ret "" ∧
    (Auth.login3 self env3 l p).connsOpened = 1 ∧
    (Auth.login3 self env3 l p).userBindAttempted = false := by
  unfold Auth.login2 Auth.login3
  rw [h2a, h2b, h2c, h3a, h3b, h3c]
  exact ⟨rfl, rfl, rfl, rfl, rfl, rfl⟩

/-- C5 witness at a concrete directory state. -/
theorem C5_witness :
    (Auth.login2 authEx env2Empty "jdoe" "pw").result = .ret "" ∧
    (Auth.login2 authEx env2Empty "jdoe" "pw").connsOpened = 1 ∧
    (Auth.login2 authEx env2Empty "jdoe" "pw").userBindAttempted = false ∧
    (Auth.login3 authEx env3Empty "jdoe" "pw").result = .ret "" ∧
    (Auth.login3 authEx env3Empty "jdoe" "pw").connsOpened = 1 ∧
    (Auth.login3 authEx env3Empty "jdoe" "pw").userBindAttempted = false :=
  C5_zero_entries_returns_empty_no_second_connection authEx env2Empty
    env3Empty "jdoe" "pw" rfl rfl rfl rfl rfl rfl

/-- C2 (amended): after a successful phase-1 search, an invalid-credentials
rejection of the phase-2 bind makes both variants return the empty string
without raising; in the legacy (version-2) variant this is the only
verify-phase path yielding the empty string, while in the `ldap3` variant
every unsuccessful phase-2 bind — rejection or raised exception alike —
yields the empty string without raising. -/
theorem C2_invalid_credentials_quiet_failure
    (self : Auth) (env2 : Ldap2Env) (env3 : Ldap3Env) (l p : String)
    (e2 : LdapEntry) (r2 : List LdapEntry)
    (e3 : LdapEntry) (r3 : List LdapEntry)
    (hl : l ≠ "")
    (h2a : env2.readerBind = none) (h2b : env2.searchExc = none)
    (h2c : env2.searchRes = e2 :: r2)
    (h3a : env3.setup = .ok) (h3b : env3.readerBindRes = .ok)
    (h3c : env3.searchRes = e3 :: r3)
    (h3d : env3.userSetupExc = false) :
    ((Auth.login2 self env2 l p).result = .ret "" ↔
      env2.userBind e2.dn p = some .invalidCredentials) ∧
    (env3.userBind e3.dn p ≠ .ok →
      (Auth.login3 self env3 l p).result = .ret "") := by
  constructor
  · unfold Auth.login2
    simp only [h2a, h2b, h2c]
    cases hub : env2.userBind e2.dn p with
    | none => simp [hub, hl]
    | some e => cases e <;> simp
  · intro hub3
    unfold Auth.login3
    simp only [h3a, h3b, h3c, h3d]
    cases hub : env3.userBind e3.dn p with
    | ok => exact absurd hub hub3
    | rejected => simp [hub]
    | raises => simp [hub]

/-- C2 witness at a concrete directory state with a wrong password. -/
theorem C2_witness :
    ((Auth.login2 authEx env2Ok "jdoe" "bad").result = .ret "" ↔
      env2Ok.userBind entryEx.dn "bad" = some .invalidCredentials) ∧
    (env3Ok.userBind entryEx.dn "bad" ≠ .ok →
      (Auth.login3 authEx env3Ok "jdoe" "bad").result = .ret "") :=
  C2_invalid_credentials_quiet_failure authEx env2Ok env3Ok "jdoe" "bad"
    entryEx [] entryEx [] (by decide) rfl rfl rfl rfl rfl rfl rfl

/-- C2 counterexample: in the `ldap3` variant a raised exception during the
phase-2 bind — not an invalid-credentials rejection — also yields the empty
string without raising, so the invalid-credentials rejection is not the
only verify-phase path that fails quietly. -/
theorem C2_counterexample :
    (Auth.login3 authEx env3BindRaises "jdoe" "pw").result = .ret "" ∧
    env3BindRaises.userBind "uid=jdoe,ou=people,dc=x" "pw" = .raises :=
  ⟨rfl, rfl⟩

/-- C4 (amended): after a successful phase-1 search, a phase-2 failure
other than invalid credentials is raised to the caller only in the legacy
(version-2) variant; the `ldap3` variant swallows every verify-phase
exception (`except Exception: pass`) and returns the empty string. -/
theorem C4_verify_transport_failure
    (self : Auth) (env2 : Ldap2Env) (env3 : Ldap3Env) (l p : String)
    (e2 : LdapEntry) (r2 : List LdapEntry)
    (e3 : LdapEntry) (r3 : List LdapEntry) (e : LdapExc)
    (h2a : env2.readerBind = none) (h2b : env2.searchExc = none)
    (h2c : env2.searchRes = e2 :: r2)
    (h2d : env2.userBind e2.dn p = some e)
    (he : e ≠ .invalidCredentials)
    (h3a : env3.setup = .ok) (h3b : env3.readerBindRes = .ok)
    (h3c : env3.searchRes = e3 :: r3)
    (h3 : env3.userSetupExc = true ∨ env3.userBind e3.dn p = .raises) :
    (Auth.login2 self env2 l p).result = .raise (.ldapExc e) ∧
    (Auth.login3 self env3 l p).result = .ret "" := by
  constructor
  · unfold Auth.login2
    simp only [h2a, h2b, h2c]
    cases e with
    | invalidCredentials => exact absurd rfl he
    | serverDown => simp [h2d]
    | protocolError => simp [h2d]
  · unfold Auth.login3
    simp only [h3a, h3b, h3c]
    cases hs : env3.userSetupExc with
    | true => simp
    | false =>
      rcases h3 with h3 | h3
      · rw [hs] at h3; exact absurd h3 (by decide)
      · simp [h3]

/-- C4 witness at concrete directory states: the legacy variant raises the
transport failure, the `ldap3` variant returns the empty string. -/
theorem C4_witness :
    (Auth.login2 authEx env2Transport "jdoe" "pw").result =
      .raise (.ldapExc .serverDown) ∧
    (Auth.login3 authEx env3BindRaises "jdoe" "pw").result = .ret "" :=
  C4_verify_transport_failure authEx env2Transport env3BindRaises "jdoe"
    "pw" entryEx [] entryEx [] .serverDown rfl rfl rfl rfl (by decide)
    rfl rfl rfl (Or.inr rfl)

/-- C4 counterexample: in the `ldap3` variant a transport failure while
opening the verify-phase connection is converted to the empty string
instead of being raised, so the empty-string result is produced by a
transport failure. -/
theorem C4_counterexample :
    (Auth.login3 authEx env3UserSetupExc "jdoe" "pw").result = .ret "" ∧
    env3UserSetupExc.userSetupExc = true :=
  ⟨rfl, rfl⟩

/-- When the attribute-name prefix of a component has exactly two
characters (as in `cn=...`), dropping through the first `=` coincides with
the code's unconditional drop of three characters. -/
theorem dropThroughEq_eq_drop_three (l : List Char) (h : attrNameLen l = 2) :
    dropThroughEq l = l.drop 3 := by
  match l with
  | [] => simp [attrNameLen] at h
  | a :: t =>
    by_cases ha : a = '='
    · simp [attrNameLen, ha] at h
    · match t with
      | [] => simp [attrNameLen, ha] at h
      | b :: u =>
        by_cases hb : b = '='
        · simp [attrNameLen, ha, hb] at h
        · match u with
          | [] => simp [dropThroughEq, ha, hb]
          | c :: w =>
            by_cases hc : c = '='
            · simp [dropThroughEq, ha, hb, hc]
            · simp [attrNameLen, ha, hb, hc] at h

/-- Under the same condition the spec's parse and `_login2`'s parse of a
membership value agree. -/
theorem parseGroupSpec_eq_parseGroup2 (v : String)
    (h : attrNameLen (takeUntilComma v.data) = 2) :
    parseGroupSpec v = parseGroup2 v := by
  unfold parseGroupSpec parseGroup2
  rw [dropThroughEq_eq_drop_three _ h]

/-- C6 (amended): on a successful login with group loading enabled, the
legacy (version-2) variant stores the deduplicated set of leading
relative-DN components with the attribute-name prefix removed (its
unconditional three-character drop agrees with prefix removal whenever the
attribute name has two characters, as in `cn=`); the `ldap3` variant
instead stores the raw membership values without any parsing. -/
theorem C6_group_set
    (self : Auth) (env2 : Ldap2Env) (env3 : Ldap3Env) (l p : String)
    (e2 : LdapEntry) (r2 : List LdapEntry)
    (e3 : LdapEntry) (r3 : List LdapEntry)
    (hg : self.ldapLoadGroups = true)
    (h2a : env2.readerBind = none) (h2b : env2.searchExc = none)
    (h2c : env2.searchRes = e2 :: r2)
    (h2d : env2.userBind e2.dn p = none)
    (hw : ∀ v ∈ e2.memberOf, attrNameLen (takeUntilComma v.data) = 2)
    (h3a : env3.setup = .ok) (h3b : env3.readerBindRes = .ok)
    (h3c : env3.searchRes = e3 :: r3)
    (h3d : env3.userSetupExc = false)
    (h3e : env3.userBind e3.dn p = .ok) :
    (Auth.login2 self env2 l p).ldapGroups =
      some ((e2.memberOf.map parseGroupSpec).toFinset) ∧
    (Auth.login3 self env3 l p).ldapGroups = some e3.memberOf.toFinset := by
  constructor
  · unfold Auth.login2
    simp only [h2a, h2b, h2c, h2d]
    simp only [hg, if_true]
    have hmap : e2.memberOf.map parseGroupSpec = e2.memberOf.map parseGroup2 :=
      List.map_congr_left (fun v hv => parseGroupSpec_eq_parseGroup2 v (hw v hv))
    rw [hmap]
  · unfold Auth.login3
    simp only [h3a, h3b, h3c, h3d, h3e]
    simp [hg]

/-- C6 witness at the spec's concrete membership values: the legacy variant
resolves the group set `{"admins", "users"}`. -/
theorem C6_witness :
    (Auth.login2 authEx env2Ok "jdoe" "pw").ldapGroups =
      some ((entryEx.memberOf.map parseGroupSpec).toFinset) ∧
    (Auth.login3 authEx env3Ok "jdoe" "pw").ldapGroups =
      some entryEx.memberOf.toFinset :=
  C6_group_set authEx env2Ok env3Ok "jdoe" "pw" entryEx [] entryEx []
    rfl rfl rfl rfl (by decide) (by decide) rfl rfl rfl rfl (by decide)

/-- C6 counterexample: at the spec's concrete membership values the `ldap3`
variant resolves the raw DNs, not `{"admins", "users"}`, so the claimed
group set is not produced by that variant. -/
theorem C6_counterexample :
    (Auth.login3 authEx env3Ok "jdoe" "pw").ldapGroups =
      some ({"cn=admins,ou=groups,dc=x", "cn=users,ou=groups,dc=x"} : Finset String) ∧
    ({"cn=admins,ou=groups,dc=x", "cn=users,ou=groups,dc=x"} : Finset String) ≠
      ({"admins", "users"} : Finset String) ∧
    (Auth.login2 authEx env2Ok "jdoe" "pw").ldapGroups =
      some ({"admins", "users"} : Finset String) := by
  refine ⟨by decide, by decide, by decide⟩

/-- C7 (amended): when group loading is disabled `self._ldap_groups` is
never assigned, whatever the directory holds and however the call ends;
the search, however, still requests the `memberOf` attribute (the
attribute list is hard-coded in both variants, see the counterexample). -/
theorem C7_groups_absent_when_disabled
    (self : Auth) (env2 : Ldap2Env) (env3 : Ldap3Env) (l p : String)
    (h : self.ldapLoadGroups = false) :
    (Auth.login2 self env2 l p).ldapGroups = none ∧
    (Auth.login3 self env3 l p).ldapGroups = none := by
  constructor
  · unfold Auth.login2
    repeat' split
    all_goals simp_all
  · unfold Auth.login3
    repeat' split
    all_goals simp_all

/-- C7 witness at a concrete directory state holding membership data. -/
theorem C7_witness :
    (Auth.login2 authNoGroups env2Ok "jdoe" "pw").ldapGroups = none ∧
    (Auth.login3 authNoGroups env3Ok "jdoe" "pw").ldapGroups = none :=
  C7_groups_absent_when_disabled authNoGroups env2Ok env3Ok "jdoe" "pw" rfl

/-- C7 counterexample: with group loading disabled both variants still
request the `memberOf` attribute in the search, so the claim that no
group-membership attribute is requested fails. -/
theorem C7_counterexample :
    authNoGroups.ldapLoadGroups = false ∧
    (Auth.login2 authNoGroups env2Ok "jdoe" "pw").searchAttrs =
      some ["memberOf"] ∧
    (Auth.login3 authNoGroups env3Ok "jdoe" "pw").searchAttrs =
      some ["memberOf"] :=
  ⟨rfl, by decide, by decide⟩

/-- C8 (amended): on a fully successful login both variants unbind every
connection they opened (two opened, two unbound); but on the early-return
and error paths — zero search results, invalid credentials, raised errors —
the connection that is open at that point is not unbound (see the
counterexample), so connections are released only on the success path. -/
theorem C8_success_path_closes_connections
    (self : Auth) (env2 : Ldap2Env) (env3 : Ldap3Env) (l p : String)
    (e2 : LdapEntry) (r2 : List LdapEntry)
    (e3 : LdapEntry) (r3 : List LdapEntry)
    (h2a : env2.readerBind = none) (h2b : env2.searchExc = none)
    (h2c : env2.searchRes = e2 :: r2)
    (h2d : env2.userBind e2.dn p = none)
    (h3a : env3.setup = .ok) (h3b : env3.readerBindRes = .ok)
    (h3c : env3.searchRes = e3 :: r3)
    (h3d : env3.userSetupExc = false)
    (h3e : env3.userBind e3.dn p = .ok) :
    (Auth.login2 self env2 l p).connsOpened = 2 ∧
    (Auth.login2 self env2 l p).connsUnbound = 2 ∧
    (Auth.login3 self env3 l p).connsOpened = 2 ∧
    (Auth.login3 self env3 l p).connsUnbound = 2 := by
  unfold Auth.login2 Auth.login3
  simp [h2a, h2b, h2c, h2d, h3a, h3b, h3c, h3d, h3e]

/-- C8 witness: the fully successful concrete run closes both connections
in both variants. -/
theorem C8_witness :
    (Auth.login2 authEx env2Ok "jdoe" "pw").connsOpened = 2 ∧
    (Auth.login2 authEx env2Ok "jdoe" "pw").connsUnbound = 2 ∧
    (Auth.login3 authEx env3Ok "jdoe" "pw").connsOpened = 2 ∧
    (Auth.login3 authEx env3Ok "jdoe" "pw").connsUnbound = 2 :=
  C8_success_path_closes_connections authEx env2Ok env3Ok "jdoe" "pw"
    entryEx [] entryEx [] rfl rfl rfl (by decide) rfl rfl rfl rfl (by decide)

/-- C8 counterexample: the zero-entries run returns with the reader
connection still bound (one opened, none unbound), and the wrong-password
run of the legacy variant returns with the verify-phase connection still
bound (two opened, one unbound) — connections do leak past the call. -/
theorem C8_counterexample :
    (Auth.login2 authEx env2Empty "jdoe" "pw").result = .ret "" ∧
    (Auth.login2 authEx env2Empty "jdoe" "pw").connsOpened = 1 ∧
    (Auth.login2 authEx env2Empty "jdoe" "pw").connsUnbound = 0 ∧
    (Auth.login2 authEx env2Ok "jdoe" "bad").connsOpened = 2 ∧
    (Auth.login2 authEx env2Ok "jdoe" "bad").connsUnbound = 1 :=
  ⟨rfl, rfl, rfl, by decide, by decide⟩

/-- The `Auth` state `__init__` produces from `confPartialTls` (SSL
requested, CA-bundle key missing) when `ldap3` imports. -/
def authPartialTlsEx : Auth :=
  { ldapUri := "ldap://localhost", ldapBase := "dc=x",
    ldapReaderDn := "cn=reader,dc=x", ldapSecret := "rs",
    ldapFilter := "(uid={0})", ldapLoadGroups := true, ldapUseSsl := true,
    ldapVersion := none, tls := none }

/-- C9: evidence of the code defect.  With encrypted transport requested
(`ldap_use_ssl` true) but the CA-bundle key unresolved, construction does
NOT fail: the `except KeyError: pass` swallows the missing key and
`__init__` completes silently with `ldap_use_ssl` set and no TLS
configuration — contradicting the all-or-nothing requirement. -/
theorem C9_partial_tls_construction_completes :
    Auth.init .ldap3Available confPartialTls = .ok authPartialTlsEx ∧
    authPartialTlsEx.ldapUseSsl = true ∧
    confPartialTls.ldapCaCertsFile = none ∧
    authPartialTlsEx.tls = none :=
  ⟨rfl, rfl, rfl, rfl⟩

/-- C10: when the `ldap3` import succeeds, `__init__` leaves
`_ldap_version` unassigned (the class-level annotation assigns nothing),
and `login` then raises while resolving `self._ldap_version` /
the module-level names `_login2`/`_login3`, before any directory
connection, search or bind is attempted. -/
theorem C10_login_raises_before_directory_access
    (c : Configuration) (a : Auth) (env2 : Ldap2Env) (env3 : Ldap3Env)
    (l p : String)
    (h : Auth.init .ldap3Available c = .ok a) :
    a.ldapVersion = none ∧
    (Auth.login a env2 env3 l p).result = .raise .attributeError ∧
    (Auth.login a env2 env3 l p).connsOpened = 0 ∧
    (Auth.login a env2 env3 l p).searchAttrs = none ∧
    (Auth.login a env2 env3 l p).userBindAttempted = false := by
  have hv : a.ldapVersion = none := by
    unfold Auth.init at h
    split at h
    · exact absurd h (by simp)
    · split at h
      · injection h with h
        subst h
        rfl
      · exact absurd h (by simp)
  have hl2 : Auth.login a env2 env3 l p = noopTrace .attributeError := by
    unfold Auth.login
    rw [hv]
  exact ⟨hv, by rw [hl2]; exact rfl, by rw [hl2]; exact rfl,
    by rw [hl2]; exact rfl, by rw [hl2]; exact rfl⟩

/-- C10 witness at a concrete configuration and directory state. -/
theorem C10_witness :
    authLdap3Ex.ldapVersion = none ∧
    (Auth.login authLdap3Ex env2Ok env3Ok "jdoe" "pw").result =
      .raise .attributeError ∧
    (Auth.login authLdap3Ex env2Ok env3Ok "jdoe" "pw").connsOpened = 0 ∧
    (Auth.login authLdap3Ex env2Ok env3Ok "jdoe" "pw").searchAttrs = none ∧
    (Auth.login authLdap3Ex env2Ok env3Ok "jdoe" "pw").userBindAttempted =
      false :=
  C10_login_raises_before_directory_access confEx authLdap3Ex env2Ok env3Ok
    "jdoe" "pw" rfl

end RadicaleLdap
